import Mathlib

/-!
Verification of the weston-launch launcher client
(`src/libweston/launcher-weston-launch.c`).

The C file is event-driven, single-threaded code talking to a privileged
helper over a stream socket.  We embed it shallowly:

* the launcher object (`struct launcher_weston_launch`) becomes the
  `Launcher` structure; the compositor-visible effects (the process-wide
  `session_active` flag, `session_signal` emissions, the idle-callback
  queue of the event loop, and the bytes sent on the control socket)
  become the `World` structure;
* `recvmsg` results are modelled as a list of `RecvItem` values consumed by
  the receive loop (the `len` field is the byte count the call returned,
  `id`/`ret` are the two ints of the on-stack `event` struct, `cmsg` the
  ancillary control message, if any);
* `send` outcomes are modelled as a list of `SendAttempt` values: each
  element is what one `send(2)` call did (interrupted by a signal, failed
  with some other errno, or succeeded with a byte count);
* ioctl failures in the restoration sequence are an `IoctlOutcome`
  oracle; the sequence itself is rendered as the trace of system calls it
  performs, in order;
* functions that would block forever (recv with no more incoming data,
  send interrupted forever) return `none`.

Allocation failure of the small `malloc` in `launcher_weston_launch_open`
(which returns -1 before anything is sent) is not modelled; the `malloc`
in `launcher_weston_launch_connect` is modelled by the `malloc_ok` field
of the environment because the claim about `connect` concerns its failure
paths.
-/

namespace WestonLaunch

/-- Wire tags from `weston-launch.h`.  That header is not part of the
sources under verification; only the distinctness of the tags is used by
the C code's comparisons, so the concrete values below are immaterial. -/
def WESTON_LAUNCHER_ACTIVATE : Int := 1

/-- DEACTIVATE notification tag (see `WESTON_LAUNCHER_ACTIVATE`). -/
def WESTON_LAUNCHER_DEACTIVATE : Int := 2

/-- OPEN_REPLY message tag (see `WESTON_LAUNCHER_ACTIVATE`). -/
def WESTON_LAUNCHER_OPEN_REPLY : Int := 4

/-- `sizeof(struct { int id; int ret; })`, the full two-int event. -/
def sizeof_event : Int := 8

/-- `sizeof(event.id)`, a single int. -/
def sizeof_int : Int := 4

/-- `SOL_SOCKET` (linux value; compared field-wise against the control
message, so only equality/inequality matters). -/
def SOL_SOCKET : Int := 1

/-- `SCM_RIGHTS` (linux value). -/
def SCM_RIGHTS : Int := 1

/-- `K_UNICODE` from `linux/kd.h` (0x03), the hard-coded keyboard mode
cached at connect time. -/
def K_UNICODE : Int := 3

/-- `ENOMEM` errno value, used as `-ENOMEM` return of `connect`. -/
def ENOMEM : Int := 12

/-- `EPIPE` errno value, used only in concrete scenarios. -/
def EPIPE : Int := 32

/-- The ancillary control message possibly attached to a `recvmsg`
result: its level, its type and the file descriptor it carries
(`union cmsg_data`). -/
structure Cmsg where
  cmsg_level : Int
  cmsg_type : Int
  fd : Int
deriving Repr, DecidableEq

/-- One `recvmsg` result inside `launcher_weston_launch_open`'s receive
loop: the returned byte count `len`, the two ints of the `event` struct
(meaningful only as far as `len` covers them, but carried unconditionally
— the C code also reads `event.id` for its log message), and the
ancillary message, if any.  A peer hangup is a `len = 0` item. -/
structure RecvItem where
  len : Int
  id : Int
  ret : Int
  cmsg : Option Cmsg
deriving Repr, DecidableEq

/-- A message written to the control socket: the variable-length OPEN
request of `launcher_weston_launch_open`, or the single-int
`WESTON_LAUNCHER_DEACTIVATE_DONE` acknowledgement of `handle_deactivate`. -/
inductive Sent where
  | openMsg (path : String) (flags : Int)
  | deactivateDone
deriving Repr, DecidableEq

/-- `struct launcher_weston_launch`: the fields the claims are about.
`deferred_deactivate` is an `int` used as a boolean in C. -/
structure Launcher where
  fd : Int
  tty : Int
  drm_fd : Int
  kb_mode : Int
  deferred_deactivate : Bool
deriving Repr, DecidableEq

/-- Compositor-side observable state: the process-wide session flag, a
count of `session_signal` emissions, the number of `idle_deactivate`
callbacks currently scheduled on the event loop, and the trace of
messages sent on the control socket. -/
structure World where
  session_active : Bool
  signals_emitted : Nat
  idle_queue : Nat
  sent : List Sent
deriving Repr, DecidableEq

/-- What one underlying `send(2)` call did. -/
inductive SendAttempt where
  | interrupted
  | failed (errno : Int)
  | sent (len : Int)
deriving Repr, DecidableEq

/-- The failure taxonomy of §7 of the design, naming the distinct
`return -1` branches of `launcher_weston_launch_open` (the C function
collapses all of them to -1; the constructors record which branch was
taken, each of which is separately observable through its log output). -/
inductive OpenError where
  | protocolError
  | openRejected
  | missingDescriptor
deriving Repr, DecidableEq

/-- How `launcher_weston_launch_open`'s receive loop ended: with an
OPEN_REPLY (carrying the whole `recvmsg` result), or on the
protocol-error branch (recording the `event.id` and `len` it logs). -/
inductive LoopOut where
  | reply (item : RecvItem)
  | protoErr (id : Int) (len : Int)
deriving Repr, DecidableEq

/-- System calls performed by `launcher_weston_launch_restore`, in trace
order. -/
inductive Sys where
  | kdskbmute (tty : Int)
  | kdskbmode (tty : Int) (mode : Int)
  | kdsetmode_text (tty : Int)
  | dropMaster (fd : Int)
  | vt_setmode_auto (tty : Int)
deriving Repr, DecidableEq

/-- Failure oracle for the ioctls of the restoration sequence: each flag
says whether the corresponding call fails (returns nonzero / negative). -/
structure IoctlOutcome where
  kbmute_fails : Bool
  kbmode_fails : Bool
  kdsetmode_fails : Bool
  vtsetmode_fails : Bool
deriving Repr, DecidableEq

/-- Actions of `launcher_weston_launch_destroy`, in trace order.
`restoreAct` marks the call to `launcher_weston_launch_restore` (whose
own system calls are the subject of the restoration theorems); the final
`free(launcher)` is memory management, not a descriptor action, and is
not part of the trace. -/
inductive TeardownAct where
  | closeFd (fd : Int)
  | removeSource
  | restoreAct
  | closeTty (fd : Int)
deriving Repr, DecidableEq

/-- One environment slot as seen through `getenv` + `safe_strtoint`.
`safe_strtoint` lives in `shared/string-helpers.h`, which is not among
the sources under verification; it is abstracted here: `absent` is a
NULL `getenv`, `unparsable` a string `safe_strtoint` rejects, and
`value fd` a string parsing to `fd`. -/
inductive EnvSlot where
  | absent
  | unparsable
  | value (fd : Int)
deriving Repr, DecidableEq

/-- The process environment `launcher_weston_launch_connect` runs in:
the two environment slots, the set of descriptor numbers on which
`fcntl(fd, F_GETFD)` succeeds, and whether `malloc` and
`wl_event_loop_add_fd` succeed. -/
structure OsEnv where
  sock_slot : EnvSlot
  tty_slot : EnvSlot
  valid_fds : List Int
  malloc_ok : Bool
  source_ok : Bool
deriving Repr, DecidableEq

/-- Result of `launcher_weston_environment_get_fd`: the returned value
(-1 on failure), the descriptors it marked close-on-exec, and whether it
erased the environment slot (note the C code returns early, without
`unsetenv`, when `F_GETFD` fails). -/
structure GetFdResult where
  fd : Int
  cloexec_set : List Int
  slot_cleared : Bool
deriving Repr, DecidableEq

/-- Outcome of `launcher_weston_launch_connect`: the int it returns, the
connection written through `*out` (only on success), whether the failure
path ran `free(launcher)`, the descriptors it acquired from the
environment, and the descriptors it closed.  The `connect` body contains
no `close()` call at all, so `closed` is the trace of an action the
function never performs. -/
structure ConnectOutcome where
  ret : Int
  conn : Option Launcher
  freed : Bool
  acquired : List Int
  closed : List Int
deriving Repr, DecidableEq

/-- Result of one `launcher_weston_launch_data` dispatch: the new
launcher and world, whether the restoration sequence ran, whether the
process was terminated (`exit(-1)`), and whether the socket was read
(`recv`) on this turn. -/
structure DataResult where
  l : Launcher
  w : World
  didRestore : Bool
  exited : Bool
  didRecv : Bool
deriving Repr, DecidableEq

/-- `launcher_weston_launch_send`: retry the `send` while it is
interrupted by a signal (`len < 0 && errno == EINTR`), return the first
other outcome — the byte count on success (`Except.ok`), or the errno of
a non-interruption failure (`Except.error`).  `none` models the
never-returning case of an endless interruption stream. -/
def launcher_weston_launch_send : List SendAttempt → Option (Except Int Int)
  | [] => none
  | SendAttempt.interrupted :: rest => launcher_weston_launch_send rest
  | SendAttempt.failed e :: _ => some (Except.error e)
  | SendAttempt.sent n :: _ => some (Except.ok n)

/-- `handle_deactivate`: clear the process-wide session flag, emit the
session signal, send the `WESTON_LAUNCHER_DEACTIVATE_DONE`
acknowledgement (whose send result the C code discards). -/
def handle_deactivate (w : World) : World :=
  { w with session_active := false
           signals_emitted := w.signals_emitted + 1
           sent := w.sent ++ [Sent.deactivateDone] }

/-- `idle_deactivate`, the deferred callback scheduled from inside
`launcher_weston_launch_open`: if a deactivation is still pending, clear
the flag and deliver it; otherwise do nothing. -/
def idle_deactivate (l : Launcher) (w : World) : Launcher × World :=
  if l.deferred_deactivate then
    ({ l with deferred_deactivate := false }, handle_deactivate w)
  else
    (l, w)

/-- The state of the world after `launcher_weston_launch_open` has sent
its OPEN request. -/
def afterSendW (w : World) (path : String) (flags : Int) : World :=
  { w with sent := w.sent ++ [Sent.openMsg path flags] }

/-- The receive loop of `launcher_weston_launch_open` (lines 168-186):
a full two-int read tagged OPEN_REPLY breaks out of the loop; an exact
one-int read tagged DEACTIVATE while no deactivation is deferred
schedules one `idle_deactivate` callback, sets the flag and keeps
waiting; anything else is the logged protocol-error branch. -/
def open_recv_loop : Launcher → World → List RecvItem → Option (LoopOut × Launcher × World)
  | _, _, [] => none
  | l, w, item :: rest =>
    if item.len = sizeof_event ∧ item.id = WESTON_LAUNCHER_OPEN_REPLY then
      some (LoopOut.reply item, l, w)
    else if item.len = sizeof_int ∧ item.id = WESTON_LAUNCHER_DEACTIVATE
        ∧ l.deferred_deactivate = false then
      open_recv_loop { l with deferred_deactivate := true }
        { w with idle_queue := w.idle_queue + 1 } rest
    else
      some (LoopOut.protoErr item.id item.len, l, w)

/-- Validation of the OPEN_REPLY (lines 188-205): a negative result code
is the rejected-open `return -1`; a missing control message, a wrong
level or type, or the -1 descriptor sentinel are the missing-descriptor
`return -1`s; otherwise the attached descriptor is returned. -/
def openReplyResult (item : RecvItem) : Except OpenError Int :=
  if item.ret < 0 then
    Except.error OpenError.openRejected
  else
    match item.cmsg with
    | none => Except.error OpenError.missingDescriptor
    | some c =>
      if c.cmsg_level ≠ SOL_SOCKET ∨ c.cmsg_type ≠ SCM_RIGHTS then
        Except.error OpenError.missingDescriptor
      else if c.fd = -1 then
        Except.error OpenError.missingDescriptor
      else
        Except.ok c.fd

/-- `launcher_weston_launch_open`: send the OPEN request (the send's
result is discarded by the C code — only an endless-interruption hang is
observable), run the receive loop, then either report the protocol
error or validate the reply.  All `Except.error` outcomes are `return
-1` in C (see `cReturn`). -/
def launcher_weston_launch_open (l : Launcher) (w : World) (path : String) (flags : Int)
    (sendAttempts : List SendAttempt) (incoming : List RecvItem) :
    Option (Except OpenError Int × Launcher × World) :=
  match launcher_weston_launch_send sendAttempts with
  | none => none
  | some _ =>
    match open_recv_loop l (afterSendW w path flags) incoming with
    | none => none
    | some (LoopOut.protoErr _ _, l', w') =>
      some (Except.error OpenError.protocolError, l', w')
    | some (LoopOut.reply item, l', w') =>
      some (openReplyResult item, l', w')

/-- The int value `launcher_weston_launch_open` actually returns in C
for a given outcome: every error branch is `return -1`. -/
def cReturn : Except OpenError Int → Int
  | Except.error _ => -1
  | Except.ok fd => fd

/-- `launcher_weston_launch_restore` (lines 214-237): the trace of
system calls, in order, plus how many failures were logged.  The
keyboard step tries `KDSKBMUTE` first and falls back to restoring the
cached `KDSKBMODE` only when the unmute fails (the C `&&`
short-circuit); every later step is attempted unconditionally; failures
are only ever logged — the return type carries no error. -/
def launcher_weston_launch_restore (l : Launcher) (oc : IoctlOutcome) : List Sys × Nat :=
  let kb : List Sys :=
    if oc.kbmute_fails then [Sys.kdskbmute l.tty, Sys.kdskbmode l.tty l.kb_mode]
    else [Sys.kdskbmute l.tty]
  let kbLog : Nat := if oc.kbmute_fails ∧ oc.kbmode_fails then 1 else 0
  let kdLog : Nat := if oc.kdsetmode_fails then 1 else 0
  let vtLog : Nat := if oc.vtsetmode_fails then 1 else 0
  (kb ++ [Sys.kdsetmode_text l.tty, Sys.dropMaster l.drm_fd, Sys.vt_setmode_auto l.tty],
   kbLog + kdLog + vtLog)

/-- `launcher_weston_launch_data` (lines 239-279), the readiness
dispatch outside an open wait: on hangup/error, restore and terminate;
else, if a deactivation is deferred, deliver it and return without
reading the socket; else read one int (`next`) and dispatch on it
(ACTIVATE, DEACTIVATE, or the logged-and-ignored default). -/
def launcher_weston_launch_data (l : Launcher) (w : World)
    (hangupOrError : Bool) (next : Int) : DataResult :=
  if hangupOrError then
    { l := l, w := w, didRestore := true, exited := true, didRecv := false }
  else if l.deferred_deactivate then
    { l := { l with deferred_deactivate := false }, w := handle_deactivate w
      didRestore := false, exited := false, didRecv := false }
  else
    let w' :=
      if next = WESTON_LAUNCHER_ACTIVATE then
        { w with session_active := true, signals_emitted := w.signals_emitted + 1 }
      else if next = WESTON_LAUNCHER_DEACTIVATE then
        handle_deactivate w
      else
        w
    { l := l, w := w', didRestore := false, exited := false, didRecv := true }

/-- `launcher_weston_environment_get_fd` (lines 288-311): an absent or
unparsable slot fails; a parsed descriptor number on which `F_GETFD`
fails also fails (without clearing the slot); otherwise the descriptor
is marked close-on-exec, the slot erased, and the descriptor returned. -/
def launcher_weston_environment_get_fd (slot : EnvSlot) (valid : List Int) : GetFdResult :=
  match slot with
  | EnvSlot.absent => { fd := -1, cloexec_set := [], slot_cleared := false }
  | EnvSlot.unparsable => { fd := -1, cloexec_set := [], slot_cleared := false }
  | EnvSlot.value fd =>
    if fd ∈ valid then { fd := fd, cloexec_set := [fd], slot_cleared := true }
    else { fd := -1, cloexec_set := [], slot_cleared := false }

/-- `launcher_weston_launch_connect` (lines 314-355): allocate; read the
socket descriptor from `WESTON_LAUNCHER_SOCK` (failure frees the object
and returns -1); read the terminal descriptor from `WESTON_TTY_FD`
(its failure is NOT checked — `tty` simply stays -1); cache `K_UNICODE`
as the keyboard mode; register the readiness source (failure frees the
object and returns -ENOMEM, closing nothing); on success write the
connection through `*out` and return 0. -/
def launcher_weston_launch_connect (env : OsEnv) : ConnectOutcome :=
  if env.malloc_ok = false then
    { ret := -ENOMEM, conn := none, freed := false, acquired := [], closed := [] }
  else
    let sock := launcher_weston_environment_get_fd env.sock_slot env.valid_fds
    if sock.fd = -1 then
      { ret := -1, conn := none, freed := true, acquired := [], closed := [] }
    else
      let tty := launcher_weston_environment_get_fd env.tty_slot env.valid_fds
      let acq := sock.fd :: (if tty.fd = -1 then [] else [tty.fd])
      if env.source_ok = false then
        { ret := -ENOMEM, conn := none, freed := true, acquired := acq, closed := [] }
      else
        { ret := 0
          conn := some { fd := sock.fd, tty := tty.fd, drm_fd := -1,
                         kb_mode := K_UNICODE, deferred_deactivate := false }
          freed := false, acquired := acq, closed := [] }

/-- `launcher_weston_launch_destroy` (lines 357-373): a live channel
(`fd != -1`) gets its socket closed and its readiness source removed
and no restoration; a lost channel (`fd == -1`) gets the restoration
sequence instead; in both cases the terminal descriptor, when it is
held (`tty >= 0`), is closed last (the trailing `free(launcher)` is not
part of the trace). -/
def launcher_weston_launch_destroy (l : Launcher) : List TeardownAct :=
  (if l.fd ≠ -1 then [TeardownAct.closeFd l.fd, TeardownAct.removeSource]
   else [TeardownAct.restoreAct])
  ++ (if 0 ≤ l.tty then [TeardownAct.closeTty l.tty] else [])

/-- Number of DEACTIVATE_DONE acknowledgements in a sent-message trace:
the delivery count of deactivations. -/
def countDones : List Sent → Nat
  | [] => 0
  | Sent.deactivateDone :: rest => countDones rest + 1
  | Sent.openMsg _ _ :: rest => countDones rest

/-- Deliveries recorded in a world. -/
def dones (w : World) : Nat := countDones w.sent

/-- Number of restoration calls in a teardown trace. -/
def countRestores : List TeardownAct → Nat
  | [] => 0
  | TeardownAct.restoreAct :: rest => countRestores rest + 1
  | _ :: rest => countRestores rest

/-- A concrete launcher fixture: connected state as `connect` leaves it
(socket 3, terminal 0, `drm_fd` sentinel, cached mode, no deferral). -/
def l_ex : Launcher :=
  { fd := 3, tty := 0, drm_fd := -1, kb_mode := K_UNICODE, deferred_deactivate := false }

/-- `l_ex` with a deactivation already deferred. -/
def l_def : Launcher := { l_ex with deferred_deactivate := true }

/-- A concrete world fixture: active session, nothing emitted, sent or
scheduled yet. -/
def w_ex : World :=
  { session_active := true, signals_emitted := 0, idle_queue := 0, sent := [] }

/-- A concrete well-formed OPEN_REPLY carrying descriptor 7. -/
def reply_ok_7 : RecvItem :=
  { len := 8, id := WESTON_LAUNCHER_OPEN_REPLY, ret := 0
    cmsg := some { cmsg_level := SOL_SOCKET, cmsg_type := SCM_RIGHTS, fd := 7 } }

/-- A concrete well-formed single-int DEACTIVATE notification. -/
def deact_item : RecvItem :=
  { len := 4, id := WESTON_LAUNCHER_DEACTIVATE, ret := 0, cmsg := none }

/-- A zero-length `recvmsg` result: what peer hangup looks like inside
the open-request receive loop (the `event` struct is untouched; the
field values carried here are the stale zeros). -/
def hangup_item : RecvItem := { len := 0, id := 0, ret := 0, cmsg := none }

/-- `l_ex` after the control channel was lost (`fd` sentinel). -/
def l_lost : Launcher := { l_ex with fd := -1 }

/-- `w_ex` after an OPEN request for path `"p"`, flags 0, with a
DEACTIVATE deferred during the wait (one idle callback scheduled). -/
def w_after_p : World :=
  { w_ex with idle_queue := 1, sent := [Sent.openMsg "p" 0] }

/-- `w_ex` after an OPEN request for path `"p"`, flags 0, with no
deferral. -/
def w_sent_p : World := { w_ex with sent := [Sent.openMsg "p" 0] }

/-- A concrete environment whose socket slot is a valid descriptor but
whose terminal slot is absent. -/
def env_no_tty : OsEnv :=
  { sock_slot := EnvSlot.value 5, tty_slot := EnvSlot.absent, valid_fds := [5]
    malloc_ok := true, source_ok := true }

/-- A concrete environment whose socket slot is absent. -/
def env_no_sock : OsEnv :=
  { sock_slot := EnvSlot.absent, tty_slot := EnvSlot.value 6, valid_fds := [6]
    malloc_ok := true, source_ok := true }

/-! ## Helper lemmas about the receive loop -/

/-- `countDones` is additive over concatenation. -/
theorem countDones_append (a b : List Sent) :
    countDones (a ++ b) = countDones a + countDones b := by
  induction a with
  | nil => simp [countDones]
  | cons x rest ih =>
    cases x with
    | openMsg p f => simpa [countDones] using ih
    | deactivateDone => simp [countDones, ih]; omega

/-- The receive loop of `open_device` touches only the deferral flag and
the idle queue: every other launcher field, the sent-message trace, the
session flag and the signal count pass through unchanged. -/
theorem open_recv_loop_frame (items : List RecvItem) :
    ∀ (l : Launcher) (w : World) (out : LoopOut) (l' : Launcher) (w' : World),
    open_recv_loop l w items = some (out, l', w') →
    l'.fd = l.fd ∧ l'.tty = l.tty ∧ l'.drm_fd = l.drm_fd ∧ l'.kb_mode = l.kb_mode ∧
    w'.sent = w.sent ∧ w'.session_active = w.session_active ∧
    w'.signals_emitted = w.signals_emitted := by
  induction items with
  | nil =>
    intro l w out l' w' h
    simp [open_recv_loop] at h
  | cons item rest ih =>
    intro l w out l' w' h
    simp only [open_recv_loop] at h
    split at h
    · simp only [Option.some.injEq, Prod.mk.injEq] at h
      obtain ⟨-, rfl, rfl⟩ := h
      exact ⟨rfl, rfl, rfl, rfl, rfl, rfl, rfl⟩
    · split at h
      · have h' := ih _ _ _ _ _ h
        exact h'
      · simp only [Option.some.injEq, Prod.mk.injEq] at h
        obtain ⟨-, rfl, rfl⟩ := h
        exact ⟨rfl, rfl, rfl, rfl, rfl, rfl, rfl⟩

/-- The receive loop either leaves the deferral flag and the idle queue
alone, or — starting with no deferral pending — defers exactly one
deactivation: flag raised, exactly one idle callback scheduled. -/
theorem open_recv_loop_defer_inv (items : List RecvItem) :
    ∀ (l : Launcher) (w : World) (out : LoopOut) (l' : Launcher) (w' : World),
    open_recv_loop l w items = some (out, l', w') →
    (l'.deferred_deactivate = l.deferred_deactivate ∧ w'.idle_queue = w.idle_queue) ∨
    (l.deferred_deactivate = false ∧ l'.deferred_deactivate = true ∧
     w'.idle_queue = w.idle_queue + 1) := by
  induction items with
  | nil =>
    intro l w out l' w' h
    simp [open_recv_loop] at h
  | cons item rest ih =>
    intro l w out l' w' h
    simp only [open_recv_loop] at h
    split at h
    · simp only [Option.some.injEq, Prod.mk.injEq] at h
      obtain ⟨-, rfl, rfl⟩ := h
      exact Or.inl ⟨rfl, rfl⟩
    · rename_i hcond
      split at h
      · rename_i hdef
        rcases ih _ _ _ _ _ h with ⟨h1, h2⟩ | ⟨h1, -, -⟩
        · exact Or.inr ⟨hdef.2.2, h1, h2⟩
        · simp at h1
      · simp only [Option.some.injEq, Prod.mk.injEq] at h
        obtain ⟨-, rfl, rfl⟩ := h
        exact Or.inl ⟨rfl, rfl⟩

/-- Case analysis of a completed `launcher_weston_launch_open`: the send
succeeded (its value irrelevant), and the loop ended either on the
protocol-error branch or with an OPEN_REPLY that was then validated. -/
theorem open_eq_cases (l : Launcher) (w : World) (path : String) (flags : Int)
    (atts : List SendAttempt) (items : List RecvItem)
    (res : Except OpenError Int) (l' : Launcher) (w' : World)
    (h : launcher_weston_launch_open l w path flags atts items = some (res, l', w')) :
    ∃ s, launcher_weston_launch_send atts = some s ∧
      ((∃ i len, open_recv_loop l (afterSendW w path flags) items
          = some (LoopOut.protoErr i len, l', w') ∧
          res = Except.error OpenError.protocolError) ∨
       (∃ item, open_recv_loop l (afterSendW w path flags) items
          = some (LoopOut.reply item, l', w') ∧
          res = openReplyResult item)) := by
  unfold launcher_weston_launch_open at h
  cases hs : launcher_weston_launch_send atts with
  | none => rw [hs] at h; exact absurd h (by simp)
  | some s =>
    rw [hs] at h
    refine ⟨s, rfl, ?_⟩
    cases hl : open_recv_loop l (afterSendW w path flags) items with
    | none => rw [hl] at h; exact absurd h (by simp)
    | some p =>
      rw [hl] at h
      obtain ⟨out, l2, w2⟩ := p
      cases out with
      | protoErr i len =>
        simp only [Option.some.injEq, Prod.mk.injEq] at h
        obtain ⟨rfl, rfl, rfl⟩ := h
        exact Or.inl ⟨i, len, rfl, rfl⟩
      | reply item =>
        simp only [Option.some.injEq, Prod.mk.injEq] at h
        obtain ⟨rfl, rfl, rfl⟩ := h
        exact Or.inr ⟨item, rfl, rfl⟩

/-- A first received item that is neither a full-length OPEN_REPLY nor
a deferrable exact-length DEACTIVATE sends `open_device` down the
protocol-error branch: the call fails, its only state effect the
already recorded OPEN request. -/
theorem open_bad_item_protoErr (l : Launcher) (w : World) (path : String)
    (flags : Int) (atts : List SendAttempt) (s : Except Int Int)
    (item : RecvItem) (rest : List RecvItem)
    (hs : launcher_weston_launch_send atts = some s)
    (hc1 : ¬(item.len = sizeof_event ∧ item.id = WESTON_LAUNCHER_OPEN_REPLY))
    (hc2 : ¬(item.len = sizeof_int ∧ item.id = WESTON_LAUNCHER_DEACTIVATE ∧
      l.deferred_deactivate = false)) :
    launcher_weston_launch_open l w path flags atts (item :: rest)
      = some (Except.error OpenError.protocolError, l, afterSendW w path flags) := by
  unfold launcher_weston_launch_open
  rw [hs]
  simp only [open_recv_loop, if_neg hc1, if_neg hc2]

/-- A validated reply is never the ok-result -1: the sentinel is
filtered out before the descriptor is returned. -/
theorem openReplyResult_ok (item : RecvItem) (fd : Int)
    (h : openReplyResult item = Except.ok fd) : fd ≠ -1 := by
  unfold openReplyResult at h
  split at h
  · exact absurd h (by simp)
  · split at h
    · exact absurd h (by simp)
    · split at h
      · exact absurd h (by simp)
      · split at h
        · exact absurd h (by simp)
        · rename_i c _ _ hfd
          simp only [Except.ok.injEq] at h
          exact h ▸ hfd

/-! ## Claim theorems -/

/-- Claim C1: inside `open_device`'s receive loop, a single-int
DEACTIVATE arriving while no deactivation is deferred schedules exactly
one deferred callback on the event loop, raises the deferral flag and
keeps the loop waiting for the OPEN_REPLY; any other message — or a
DEACTIVATE while one is already deferred — takes the protocol-error
branch, which aborts the loop and makes `open_device` fail (return -1,
`ProtocolError`).  The final conjunct shows the loop schedules at most
that one callback over the whole call. -/
theorem c1_open_deactivate_deferral :
    (∀ (l : Launcher) (w : World) (item : RecvItem) (rest : List RecvItem),
      l.deferred_deactivate = false → item.len = sizeof_int →
      item.id = WESTON_LAUNCHER_DEACTIVATE →
      open_recv_loop l w (item :: rest)
        = open_recv_loop { l with deferred_deactivate := true }
            { w with idle_queue := w.idle_queue + 1 } rest) ∧
    (∀ (l : Launcher) (w : World) (item : RecvItem) (rest : List RecvItem),
      ¬(item.len = sizeof_event ∧ item.id = WESTON_LAUNCHER_OPEN_REPLY) →
      ¬(item.len = sizeof_int ∧ item.id = WESTON_LAUNCHER_DEACTIVATE ∧
        l.deferred_deactivate = false) →
      open_recv_loop l w (item :: rest)
        = some (LoopOut.protoErr item.id item.len, l, w)) ∧
    (∀ (l : Launcher) (w : World) (path : String) (flags : Int)
       (atts : List SendAttempt) (s : Except Int Int) (item : RecvItem)
       (rest : List RecvItem),
      launcher_weston_launch_send atts = some s →
      ¬(item.len = sizeof_event ∧ item.id = WESTON_LAUNCHER_OPEN_REPLY) →
      ¬(item.len = sizeof_int ∧ item.id = WESTON_LAUNCHER_DEACTIVATE ∧
        l.deferred_deactivate = false) →
      launcher_weston_launch_open l w path flags atts (item :: rest)
        = some (Except.error OpenError.protocolError, l, afterSendW w path flags)) ∧
    (∀ (l : Launcher) (w : World) (path : String) (flags : Int)
       (atts : List SendAttempt) (items : List RecvItem)
       (res : Except OpenError Int) (l' : Launcher) (w' : World),
      launcher_weston_launch_open l w path flags atts items = some (res, l', w') →
      (l'.deferred_deactivate = l.deferred_deactivate ∧
       w'.idle_queue = w.idle_queue) ∨
      (l.deferred_deactivate = false ∧ l'.deferred_deactivate = true ∧
       w'.idle_queue = w.idle_queue + 1)) := by
  refine ⟨?defer, ?proto, ?protoOpen, ?once⟩
  case defer =>
    intro l w item rest h1 h2 h3
    have hc1 : ¬(item.len = sizeof_event ∧ item.id = WESTON_LAUNCHER_OPEN_REPLY) := by
      rintro ⟨hl, -⟩
      rw [h2] at hl
      exact absurd hl (by decide)
    have hc2 : item.len = sizeof_int ∧ item.id = WESTON_LAUNCHER_DEACTIVATE ∧
        l.deferred_deactivate = false := ⟨h2, h3, h1⟩
    simp only [open_recv_loop, if_neg hc1, if_pos hc2]
  case proto =>
    intro l w item rest hc1 hc2
    simp only [open_recv_loop, if_neg hc1, if_neg hc2]
  case protoOpen =>
    intro l w path flags atts s item rest hs hc1 hc2
    exact open_bad_item_protoErr l w path flags atts s item rest hs hc1 hc2
  case once =>
    intro l w path flags atts items res l' w' h
    obtain ⟨s, -, hcase⟩ := open_eq_cases l w path flags atts items res l' w' h
    rcases hcase with ⟨i, len, hl, -⟩ | ⟨item, hl, -⟩ <;>
      have h' := open_recv_loop_defer_inv items l (afterSendW w path flags) _ l' w' hl <;>
      exact h'

/-- Witness for C1: concretely, the well-formed DEACTIVATE defers and
continues the loop, and a second DEACTIVATE while one is deferred makes
`open_device` return the protocol error. -/
theorem c1_open_deactivate_deferral_witness :
    (open_recv_loop l_ex w_ex (deact_item :: [reply_ok_7])
      = open_recv_loop { l_ex with deferred_deactivate := true }
          { w_ex with idle_queue := w_ex.idle_queue + 1 } [reply_ok_7]) ∧
    (launcher_weston_launch_open l_def w_ex "p" 0 [SendAttempt.sent 1] [deact_item]
      = some (Except.error OpenError.protocolError, l_def, afterSendW w_ex "p" 0)) :=
  ⟨c1_open_deactivate_deferral.1 l_ex w_ex deact_item [reply_ok_7] rfl rfl rfl,
   c1_open_deactivate_deferral.2.2.1 l_def w_ex "p" 0 [SendAttempt.sent 1]
     (Except.ok 1) deact_item [] rfl (by decide) (by decide)⟩

/-- Claim C2: a deferred DEACTIVATE is delivered exactly once
(session flag cleared, signal emitted, DEACTIVATE_DONE sent), and the
flag is cleared atomically with delivery, by whichever of
`idle_deactivate` and the readiness dispatch runs first: the first
conjunct shows the idle callback delivering and a subsequent idle pass
doing nothing; the second shows the readiness dispatch delivering
without reading the socket on that turn and the idle callback
afterwards doing nothing; the third shows that `open_device` itself
never delivers — its run changes neither the session flag nor the
number of sent DEACTIVATE_DONE acknowledgements — so delivery happens
strictly after `open_device` has returned its result. -/
theorem c2_deferred_delivery_exactly_once :
    (∀ (l : Launcher) (w : World),
      l.deferred_deactivate = true →
      (idle_deactivate l w).1.deferred_deactivate = false ∧
      (idle_deactivate l w).2.session_active = false ∧
      (idle_deactivate l w).2.signals_emitted = w.signals_emitted + 1 ∧
      dones (idle_deactivate l w).2 = dones w + 1 ∧
      idle_deactivate (idle_deactivate l w).1 (idle_deactivate l w).2
        = ((idle_deactivate l w).1, (idle_deactivate l w).2)) ∧
    (∀ (l : Launcher) (w : World) (next : Int),
      l.deferred_deactivate = true →
      (launcher_weston_launch_data l w false next).didRecv = false ∧
      (launcher_weston_launch_data l w false next).l.deferred_deactivate = false ∧
      (launcher_weston_launch_data l w false next).w.session_active = false ∧
      (launcher_weston_launch_data l w false next).w.signals_emitted
        = w.signals_emitted + 1 ∧
      dones (launcher_weston_launch_data l w false next).w = dones w + 1 ∧
      idle_deactivate (launcher_weston_launch_data l w false next).l
          (launcher_weston_launch_data l w false next).w
        = ((launcher_weston_launch_data l w false next).l,
           (launcher_weston_launch_data l w false next).w)) ∧
    (∀ (l : Launcher) (w : World) (path : String) (flags : Int)
       (atts : List SendAttempt) (items : List RecvItem)
       (res : Except OpenError Int) (l' : Launcher) (w' : World),
      launcher_weston_launch_open l w path flags atts items = some (res, l', w') →
      dones w' = dones w ∧ w'.session_active = w.session_active) := by
  refine ⟨?idle, ?ready, ?openNoDeliver⟩
  case idle =>
    intro l w h
    simp [idle_deactivate, handle_deactivate, h, dones, countDones_append, countDones]
  case ready =>
    intro l w next h
    simp [launcher_weston_launch_data, idle_deactivate, handle_deactivate, h,
      dones, countDones_append, countDones]
  case openNoDeliver =>
    intro l w path flags atts items res l' w' h
    obtain ⟨s, -, hcase⟩ := open_eq_cases l w path flags atts items res l' w' h
    rcases hcase with ⟨i, len, hl, -⟩ | ⟨item, hl, -⟩ <;>
      obtain ⟨-, -, -, -, hsent, hsession, -⟩ :=
        open_recv_loop_frame items l (afterSendW w path flags) _ l' w' hl <;>
      constructor
    · rw [dones, hsent]
      simp [afterSendW, dones, countDones_append, countDones]
    · rw [hsession]; rfl
    · rw [dones, hsent]
      simp [afterSendW, dones, countDones_append, countDones]
    · rw [hsession]; rfl

/-- Witness for C2: from the concrete deferred state, the readiness
dispatch delivers exactly once without reading the socket, and the idle
callback on the delivered state does nothing. -/
theorem c2_deferred_delivery_exactly_once_witness :
    (launcher_weston_launch_data l_def w_ex false 0).didRecv = false ∧
    dones (launcher_weston_launch_data l_def w_ex false 0).w = dones w_ex + 1 ∧
    (launcher_weston_launch_data l_def w_ex false 0).w.session_active = false :=
  ⟨(c2_deferred_delivery_exactly_once.2.1 l_def w_ex 0 rfl).1,
   (c2_deferred_delivery_exactly_once.2.1 l_def w_ex 0 rfl).2.2.2.2.1,
   (c2_deferred_delivery_exactly_once.2.1 l_def w_ex 0 rfl).2.2.1⟩

/-- Claim C3: validation of a received OPEN_REPLY — a negative result
code is the rejected-open failure; a non-negative result with no
ancillary data, a wrong control-message level or type, or the -1
descriptor sentinel is the missing-descriptor failure (each a `return
-1` in C, never a returned descriptor of 0, and never the -1 sentinel
returned as a success); only a non-negative result with a valid
attached descriptor returns that descriptor.  The last conjunct lifts
this to `launcher_weston_launch_open`: whenever the receive loop ends
with a reply, the call's outcome is exactly this validation. -/
theorem c3_open_reply_validation :
    (∀ item : RecvItem, item.ret < 0 →
      openReplyResult item = Except.error OpenError.openRejected) ∧
    (∀ item : RecvItem, 0 ≤ item.ret → item.cmsg = none →
      openReplyResult item = Except.error OpenError.missingDescriptor) ∧
    (∀ (item : RecvItem) (c : Cmsg), 0 ≤ item.ret → item.cmsg = some c →
      (c.cmsg_level ≠ SOL_SOCKET ∨ c.cmsg_type ≠ SCM_RIGHTS ∨ c.fd = -1) →
      openReplyResult item = Except.error OpenError.missingDescriptor) ∧
    (∀ (item : RecvItem) (c : Cmsg), 0 ≤ item.ret → item.cmsg = some c →
      c.cmsg_level = SOL_SOCKET → c.cmsg_type = SCM_RIGHTS → c.fd ≠ -1 →
      openReplyResult item = Except.ok c.fd) ∧
    (∀ item : RecvItem, openReplyResult item ≠ Except.ok (-1)) ∧
    (∀ err : OpenError, cReturn (Except.error err) = -1) ∧
    (∀ (l : Launcher) (w : World) (path : String) (flags : Int)
       (atts : List SendAttempt) (s : Except Int Int) (items : List RecvItem)
       (item : RecvItem) (l' : Launcher) (w' : World),
      launcher_weston_launch_send atts = some s →
      open_recv_loop l (afterSendW w path flags) items
        = some (LoopOut.reply item, l', w') →
      launcher_weston_launch_open l w path flags atts items
        = some (openReplyResult item, l', w')) := by
  refine ⟨?rejected, ?noCmsg, ?badCmsg, ?good, ?noSentinel, ?minusOne, ?lift⟩
  case rejected =>
    intro item h
    simp [openReplyResult, h]
  case noCmsg =>
    intro item h hc
    simp [openReplyResult, not_lt.mpr h, hc]
  case badCmsg =>
    intro item c h hc hbad
    unfold openReplyResult
    rw [if_neg (not_lt.mpr h), hc]
    rcases hbad with hb | hb | hb
    · simp [hb]
    · simp [hb]
    · by_cases hlt : c.cmsg_level ≠ SOL_SOCKET ∨ c.cmsg_type ≠ SCM_RIGHTS
      · simp [hlt]
      · simp [hlt, hb]
  case good =>
    intro item c h hc hl ht hfd
    unfold openReplyResult
    rw [if_neg (not_lt.mpr h), hc]
    simp [hl, ht, hfd]
  case noSentinel =>
    intro item h
    exact absurd rfl (openReplyResult_ok item (-1) h)
  case minusOne =>
    intro err
    rfl
  case lift =>
    intro l w path flags atts s items item l' w' hs hl
    unfold launcher_weston_launch_open
    rw [hs, hl]

/-- Witness for C3: a negative result code is rejected; a non-negative
result without ancillary data is the missing-descriptor failure whose C
return value is -1, not 0; the well-formed reply returns descriptor 7. -/
theorem c3_open_reply_validation_witness :
    openReplyResult { len := 8, id := 4, ret := -2, cmsg := none }
      = Except.error OpenError.openRejected ∧
    openReplyResult { reply_ok_7 with cmsg := none }
      = Except.error OpenError.missingDescriptor ∧
    cReturn (Except.error OpenError.missingDescriptor) = -1 ∧
    openReplyResult reply_ok_7 = Except.ok 7 :=
  ⟨c3_open_reply_validation.1 _ (by decide),
   c3_open_reply_validation.2.1 { reply_ok_7 with cmsg := none } (by decide) rfl,
   c3_open_reply_validation.2.2.2.2.2.1 OpenError.missingDescriptor,
   c3_open_reply_validation.2.2.2.1 reply_ok_7 ⟨1, 1, 7⟩ (by decide) rfl rfl rfl
     (by decide)⟩

/-- Counterexample to claim C4 as stated: a DEACTIVATE deferred during
the wait leaves `deferred_deactivate` TRUE at the moment `open_device`
returns its successful result — it is cleared only later, by the idle
callback or the next readiness dispatch.  Concretely: the helper emits
a DEACTIVATE and then a successful OPEN_REPLY carrying descriptor 7;
the call returns 7 with the flag still raised. -/
theorem c4_deferred_flag_counterexample :
    (launcher_weston_launch_open l_ex w_ex "p" 0 [SendAttempt.sent 1]
        [deact_item, reply_ok_7]).map
        (fun r => (r.1, r.2.1.deferred_deactivate))
      = some (Except.ok 7, true) := rfl

/-- Claim C4, amended: a successful `open_device` returns a descriptor
distinct from -1; `deferred_deactivate` is unchanged at return unless a
DEACTIVATE was deferred during the wait, in which case exactly one idle
callback was scheduled and the flag is true (not false) until that
deferred notification is delivered. -/
theorem c4_success_descriptor_and_deferral :
    ∀ (l : Launcher) (w : World) (path : String) (flags : Int)
      (atts : List SendAttempt) (items : List RecvItem)
      (fd : Int) (l' : Launcher) (w' : World),
    launcher_weston_launch_open l w path flags atts items
      = some (Except.ok fd, l', w') →
    fd ≠ -1 ∧
    ((l'.deferred_deactivate = l.deferred_deactivate ∧
      w'.idle_queue = w.idle_queue) ∨
     (l.deferred_deactivate = false ∧ l'.deferred_deactivate = true ∧
      w'.idle_queue = w.idle_queue + 1)) := by
  intro l w path flags atts items fd l' w' h
  obtain ⟨s, -, hcase⟩ := open_eq_cases l w path flags atts items _ l' w' h
  constructor
  · rcases hcase with ⟨i, len, -, hres⟩ | ⟨item, -, hres⟩
    · exact absurd hres.symm (by simp)
    · exact openReplyResult_ok item fd hres.symm
  · rcases hcase with ⟨i, len, hl, -⟩ | ⟨item, hl, -⟩ <;>
      exact open_recv_loop_defer_inv items l (afterSendW w path flags) _ l' w' hl

/-- Witness for C4 (amended): at the concrete deferred-success run, the
returned descriptor 7 is distinct from -1 and the deferral took the
one-callback-scheduled branch. -/
theorem c4_success_descriptor_and_deferral_witness :
    (7 : Int) ≠ -1 ∧
    ((l_def.deferred_deactivate = l_ex.deferred_deactivate ∧
      w_after_p.idle_queue = w_ex.idle_queue) ∨
     (l_ex.deferred_deactivate = false ∧ l_def.deferred_deactivate = true ∧
      w_after_p.idle_queue = w_ex.idle_queue + 1)) :=
  c4_success_descriptor_and_deferral l_ex w_ex "p" 0 [SendAttempt.sent 1]
    [deact_item, reply_ok_7] 7 l_def w_after_p rfl

/-- Counterexample to claim C5 as stated: the terminal environment slot
being absent does NOT make `connect` fail — the C code never checks the
result of reading `WESTON_TTY_FD` (line 335); `connect` succeeds and
exposes a connection whose `tty` is the -1 sentinel. -/
theorem c5_tty_slot_counterexample :
    (launcher_weston_launch_connect env_no_tty).ret = 0 ∧
    (launcher_weston_launch_connect env_no_tty).conn
      = some { fd := 5, tty := -1, drm_fd := -1, kb_mode := K_UNICODE,
               deferred_deactivate := false } := by decide

/-- Claim C5, amended: `connect` fails with the EnvironmentMissing
error (-1) iff the SOCKET slot is absent, unparsable, or not a valid
open descriptor, and on that path nothing was acquired; an absent,
unparsable or invalid TERMINAL slot is tolerated — the connection is
exposed with `tty = -1`; on the event-source registration failure the
connection object is freed and not exposed, but the descriptors already
acquired are NOT closed (the `connect` body contains no close); on
every path, a connection object is exposed iff `connect` returns 0, so
no partial object is ever exposed. -/
theorem c5_connect_failure_paths :
    (∀ valid : List Int,
      launcher_weston_environment_get_fd EnvSlot.absent valid
        = { fd := -1, cloexec_set := [], slot_cleared := false } ∧
      launcher_weston_environment_get_fd EnvSlot.unparsable valid
        = { fd := -1, cloexec_set := [], slot_cleared := false }) ∧
    (∀ (fd : Int) (valid : List Int), fd ∉ valid →
      launcher_weston_environment_get_fd (EnvSlot.value fd) valid
        = { fd := -1, cloexec_set := [], slot_cleared := false }) ∧
    (∀ env : OsEnv, env.malloc_ok = true →
      (launcher_weston_environment_get_fd env.sock_slot env.valid_fds).fd = -1 →
      launcher_weston_launch_connect env
        = { ret := -1, conn := none, freed := true, acquired := [], closed := [] }) ∧
    (∀ env : OsEnv, env.malloc_ok = true → env.source_ok = false →
      (launcher_weston_environment_get_fd env.sock_slot env.valid_fds).fd ≠ -1 →
      launcher_weston_launch_connect env
        = { ret := -ENOMEM, conn := none, freed := true,
            acquired :=
              (launcher_weston_environment_get_fd env.sock_slot env.valid_fds).fd ::
                (if (launcher_weston_environment_get_fd env.tty_slot env.valid_fds).fd = -1
                 then []
                 else [(launcher_weston_environment_get_fd env.tty_slot env.valid_fds).fd]),
            closed := [] }) ∧
    (∀ env : OsEnv, env.malloc_ok = true → env.source_ok = true →
      (launcher_weston_environment_get_fd env.sock_slot env.valid_fds).fd ≠ -1 →
      (launcher_weston_environment_get_fd env.tty_slot env.valid_fds).fd = -1 →
      (launcher_weston_launch_connect env).ret = 0 ∧
      (launcher_weston_launch_connect env).conn
        = some { fd := (launcher_weston_environment_get_fd env.sock_slot env.valid_fds).fd,
                 tty := -1, drm_fd := -1, kb_mode := K_UNICODE,
                 deferred_deactivate := false }) ∧
    (∀ env : OsEnv,
      (launcher_weston_launch_connect env).conn.isSome
        ↔ (launcher_weston_launch_connect env).ret = 0) := by
  refine ⟨?getFdFail, ?getFdInvalid, ?sockFail, ?sourceLeak, ?ttyTolerated, ?noPartial⟩
  case getFdFail =>
    intro valid
    exact ⟨rfl, rfl⟩
  case getFdInvalid =>
    intro fd valid h
    simp [launcher_weston_environment_get_fd, h]
  case sockFail =>
    intro env hm hs
    simp [launcher_weston_launch_connect, hm, hs]
  case sourceLeak =>
    intro env hm hsrc hs
    simp [launcher_weston_launch_connect, hm, hsrc, hs]
  case ttyTolerated =>
    intro env hm hsrc hs htty
    simp [launcher_weston_launch_connect, hm, hsrc, hs, htty]
  case noPartial =>
    intro env
    by_cases hm : env.malloc_ok = false
    · simp [launcher_weston_launch_connect, hm, ENOMEM]
    · by_cases hs :
        (launcher_weston_environment_get_fd env.sock_slot env.valid_fds).fd = -1
      · simp [launcher_weston_launch_connect, hm, hs]
      · by_cases hsrc : env.source_ok = false
        · simp [launcher_weston_launch_connect, hm, hs, hsrc, ENOMEM]
        · simp [launcher_weston_launch_connect, hm, hs, hsrc]

/-- Witness for C5 (amended): the socket slot being absent makes
`connect` fail with -1 acquiring nothing, and at the concrete
environment with no terminal slot the no-partial-object property holds. -/
theorem c5_connect_failure_paths_witness :
    launcher_weston_launch_connect env_no_sock
      = { ret := -1, conn := none, freed := true, acquired := [], closed := [] } ∧
    ((launcher_weston_launch_connect env_no_tty).conn.isSome
      ↔ (launcher_weston_launch_connect env_no_tty).ret = 0) :=
  ⟨c5_connect_failure_paths.2.2.1 env_no_sock rfl rfl,
   c5_connect_failure_paths.2.2.2.2.2 env_no_tty⟩

/-- Claim C6: for every launcher state and every combination of ioctl
failures, the restoration sequence performs exactly one of two fixed
traces — keyboard unmute (followed by the cached-mode restore only when
the unmute fails, the C `&&` short-circuit inside step 1), then KD_TEXT,
then dropping graphics mastership, then VT_AUTO — so the text-mode,
drop-master and VT_AUTO steps are always attempted, in that order, with
drop-master strictly before VT_AUTO, whatever fails; and the function
returns only the trace and a log count, never an error to the caller. -/
theorem c6_restore_fixed_order :
    ∀ (l : Launcher) (oc : IoctlOutcome),
    (launcher_weston_launch_restore l oc).1
      = [Sys.kdskbmute l.tty, Sys.kdsetmode_text l.tty,
         Sys.dropMaster l.drm_fd, Sys.vt_setmode_auto l.tty] ∨
    (launcher_weston_launch_restore l oc).1
      = [Sys.kdskbmute l.tty, Sys.kdskbmode l.tty l.kb_mode,
         Sys.kdsetmode_text l.tty, Sys.dropMaster l.drm_fd,
         Sys.vt_setmode_auto l.tty] := by
  intro l oc
  by_cases h : oc.kbmute_fails = true
  · right
    simp [launcher_weston_launch_restore, h]
  · left
    simp only [Bool.not_eq_true] at h
    simp [launcher_weston_launch_restore, h]

/-- Counterexample to claim C7 as stated: `open_device` never writes
`drm_fd` (`DRM_MAJOR` is defined at line 52 but unused) — after a
successful open returning descriptor 7, the field still holds the -1
sentinel installed by `connect`, not 7. -/
theorem c7_drm_fd_counterexample :
    (launcher_weston_launch_open l_ex w_ex "p" 0 [SendAttempt.sent 1]
        [reply_ok_7]).map (fun r => (r.1, r.2.1.drm_fd))
      = some (Except.ok 7, -1) := rfl

/-- Claim C7, amended: `drm_fd` is set to the -1 sentinel at connect
time and never modified by `open_device` — after any completed open it
equals its prior value — and the restoration sequence drops device
mastership on whatever `drm_fd` holds, which therefore remains the -1
sentinel installed at connect time. -/
theorem c7_drm_fd_constant :
    (∀ (l : Launcher) (w : World) (path : String) (flags : Int)
       (atts : List SendAttempt) (items : List RecvItem)
       (res : Except OpenError Int) (l' : Launcher) (w' : World),
      launcher_weston_launch_open l w path flags atts items = some (res, l', w') →
      l'.drm_fd = l.drm_fd) ∧
    (∀ (env : OsEnv) (c : Launcher),
      (launcher_weston_launch_connect env).conn = some c → c.drm_fd = -1) ∧
    (∀ (l : Launcher) (oc : IoctlOutcome),
      Sys.dropMaster l.drm_fd ∈ (launcher_weston_launch_restore l oc).1) := by
  refine ⟨?openKeeps, ?connectInit, ?restoreUses⟩
  case openKeeps =>
    intro l w path flags atts items res l' w' h
    obtain ⟨s, -, hcase⟩ := open_eq_cases l w path flags atts items res l' w' h
    rcases hcase with ⟨i, len, hl, -⟩ | ⟨item, hl, -⟩ <;>
      exact (open_recv_loop_frame items l (afterSendW w path flags) _ l' w' hl).2.2.1
  case connectInit =>
    intro env c h
    by_cases hm : env.malloc_ok = false
    · simp [launcher_weston_launch_connect, hm] at h
    · by_cases hs :
        (launcher_weston_environment_get_fd env.sock_slot env.valid_fds).fd = -1
      · simp [launcher_weston_launch_connect, hm, hs] at h
      · by_cases hsrc : env.source_ok = false
        · simp [launcher_weston_launch_connect, hm, hs, hsrc] at h
        · simp [launcher_weston_launch_connect, hm, hs, hsrc] at h
          subst h
          rfl
  case restoreUses =>
    intro l oc
    unfold launcher_weston_launch_restore
    by_cases h : oc.kbmute_fails = true <;> simp [h]

/-- Witness for C7 (amended): the concrete successful open leaves
`drm_fd` at its connect-time value, and the concrete restoration drops
mastership on that stored sentinel. -/
theorem c7_drm_fd_constant_witness :
    l_ex.drm_fd = l_ex.drm_fd ∧
    Launcher.drm_fd { fd := 5, tty := -1, drm_fd := -1, kb_mode := K_UNICODE,
                      deferred_deactivate := false } = -1 :=
  ⟨c7_drm_fd_constant.1 l_ex w_ex "p" 0 [SendAttempt.sent 1] [reply_ok_7]
     (Except.ok 7) l_ex w_sent_p rfl,
   c7_drm_fd_constant.2.1 env_no_tty
     { fd := 5, tty := -1, drm_fd := -1, kb_mode := K_UNICODE,
       deferred_deactivate := false } rfl⟩

/-- Claim C8: `destroy` on a connection whose channel is still open
closes the socket and removes its readiness source and never calls the
restoration sequence; on a connection whose channel was already lost
(`fd = -1`) it calls the restoration sequence first and exactly once;
in both cases, when a terminal descriptor is held, closing it is the
last action of the trace. -/
theorem c8_destroy_paths :
    (∀ l : Launcher, l.fd ≠ -1 →
      launcher_weston_launch_destroy l
        = [TeardownAct.closeFd l.fd, TeardownAct.removeSource]
          ++ (if 0 ≤ l.tty then [TeardownAct.closeTty l.tty] else []) ∧
      TeardownAct.restoreAct ∉ launcher_weston_launch_destroy l) ∧
    (∀ l : Launcher, l.fd = -1 →
      (launcher_weston_launch_destroy l).head? = some TeardownAct.restoreAct ∧
      countRestores (launcher_weston_launch_destroy l) = 1) ∧
    (∀ l : Launcher, 0 ≤ l.tty →
      (launcher_weston_launch_destroy l).getLast?
        = some (TeardownAct.closeTty l.tty)) := by
  refine ⟨?live, ?lost, ?ttyLast⟩
  case live =>
    intro l h
    constructor
    · simp [launcher_weston_launch_destroy, h]
    · by_cases ht : 0 ≤ l.tty <;>
        simp [launcher_weston_launch_destroy, h, ht]
  case lost =>
    intro l h
    by_cases ht : 0 ≤ l.tty <;>
      simp [launcher_weston_launch_destroy, h, ht, countRestores]
  case ttyLast =>
    intro l ht
    by_cases h : l.fd = -1 <;>
      simp [launcher_weston_launch_destroy, h, ht]

/-- Witness for C8: the concrete live connection's teardown trace, and
the concrete lost connection's restore-first trace; both close the held
terminal descriptor last. -/
theorem c8_destroy_paths_witness :
    TeardownAct.restoreAct ∉ launcher_weston_launch_destroy l_ex ∧
    (launcher_weston_launch_destroy l_lost).head? = some TeardownAct.restoreAct ∧
    countRestores (launcher_weston_launch_destroy l_lost) = 1 ∧
    (launcher_weston_launch_destroy l_ex).getLast?
      = some (TeardownAct.closeTty l_ex.tty) :=
  ⟨(c8_destroy_paths.1 l_ex (by decide)).2,
   (c8_destroy_paths.2.1 l_lost rfl).1,
   (c8_destroy_paths.2.1 l_lost rfl).2,
   c8_destroy_paths.2.2 l_ex (by decide)⟩

/-- Counterexample to claim C9 as stated: a send failure other than
interruption is NOT signaled to the `open_device` caller — the C code
discards `launcher_weston_launch_send`'s return value (line 158).
Concretely, the OPEN send fails with EPIPE, yet `open_device` proceeds
and returns descriptor 7 as if the send had succeeded. -/
theorem c9_send_failure_counterexample :
    launcher_weston_launch_send [SendAttempt.failed EPIPE]
      = some (Except.error EPIPE) ∧
    launcher_weston_launch_open l_ex w_ex "p" 0 [SendAttempt.failed EPIPE]
        [reply_ok_7]
      = some (Except.ok 7, l_ex, w_sent_p) :=
  ⟨rfl, rfl⟩

/-- Claim C9, amended: the transport-layer send retries transparently
exactly when the call was interrupted by a signal, and stops at the
first other outcome without retrying; but a send failure other than
interruption is not surfaced to the `open_device` caller — the outcome
of the OPEN send is discarded, and the call's result is identical for
any two completed send outcomes. -/
theorem c9_send_retry_and_discard :
    (∀ rest : List SendAttempt,
      launcher_weston_launch_send (SendAttempt.interrupted :: rest)
        = launcher_weston_launch_send rest) ∧
    (∀ (e : Int) (rest : List SendAttempt),
      launcher_weston_launch_send (SendAttempt.failed e :: rest)
        = some (Except.error e)) ∧
    (∀ (n : Int) (rest : List SendAttempt),
      launcher_weston_launch_send (SendAttempt.sent n :: rest)
        = some (Except.ok n)) ∧
    (∀ (l : Launcher) (w : World) (path : String) (flags : Int)
       (a1 a2 : List SendAttempt) (s1 s2 : Except Int Int)
       (items : List RecvItem),
      launcher_weston_launch_send a1 = some s1 →
      launcher_weston_launch_send a2 = some s2 →
      launcher_weston_launch_open l w path flags a1 items
        = launcher_weston_launch_open l w path flags a2 items) := by
  refine ⟨?retry, ?noRetryFail, ?noRetryOk, ?discarded⟩
  case retry =>
    intro rest
    rfl
  case noRetryFail =>
    intro e rest
    rfl
  case noRetryOk =>
    intro n rest
    rfl
  case discarded =>
    intro l w path flags a1 a2 s1 s2 items h1 h2
    unfold launcher_weston_launch_open
    rw [h1, h2]

/-- Witness for C9 (amended): an interrupted send retries into the
successful attempt; the EPIPE-failing send and a successful send give
`open_device` byte-for-byte the same outcome. -/
theorem c9_send_retry_and_discard_witness :
    launcher_weston_launch_send [SendAttempt.interrupted, SendAttempt.sent 1]
      = launcher_weston_launch_send [SendAttempt.sent 1] ∧
    launcher_weston_launch_open l_ex w_ex "p" 0 [SendAttempt.failed EPIPE]
        [reply_ok_7]
      = launcher_weston_launch_open l_ex w_ex "p" 0 [SendAttempt.sent 1]
        [reply_ok_7] :=
  ⟨c9_send_retry_and_discard.1 [SendAttempt.sent 1],
   c9_send_retry_and_discard.2.2.2 l_ex w_ex "p" 0
     [SendAttempt.failed EPIPE] [SendAttempt.sent 1]
     (Except.error EPIPE) (Except.ok 1) [reply_ok_7] rfl rfl⟩

/-- Claim C10: the receive loop discriminates by received byte length —
a read that is not a full two-int OPEN_REPLY and not an exact one-int
DEACTIVATE (in particular the zero-length read produced by peer hangup
while the open request is outstanding, and mis-sized reads carrying
either tag) takes the protocol-error branch: `open_device` returns -1
as an ordinary failed open, its state effect being exactly the already
recorded OPEN request (no restoration, no termination, no delivery);
the idle-time hangup path, by contrast, runs the restoration sequence
and terminates the process. -/
theorem c10_length_discrimination :
    (∀ (l : Launcher) (w : World) (path : String) (flags : Int)
       (atts : List SendAttempt) (s : Except Int Int)
       (item : RecvItem) (rest : List RecvItem),
      launcher_weston_launch_send atts = some s →
      item.len = 0 →
      launcher_weston_launch_open l w path flags atts (item :: rest)
        = some (Except.error OpenError.protocolError, l, afterSendW w path flags)) ∧
    (∀ (l : Launcher) (w : World) (path : String) (flags : Int)
       (atts : List SendAttempt) (s : Except Int Int)
       (item : RecvItem) (rest : List RecvItem),
      launcher_weston_launch_send atts = some s →
      item.len = sizeof_int → item.id = WESTON_LAUNCHER_OPEN_REPLY →
      launcher_weston_launch_open l w path flags atts (item :: rest)
        = some (Except.error OpenError.protocolError, l, afterSendW w path flags)) ∧
    (∀ (l : Launcher) (w : World) (path : String) (flags : Int)
       (atts : List SendAttempt) (s : Except Int Int)
       (item : RecvItem) (rest : List RecvItem),
      launcher_weston_launch_send atts = some s →
      item.len = sizeof_event → item.id = WESTON_LAUNCHER_DEACTIVATE →
      launcher_weston_launch_open l w path flags atts (item :: rest)
        = some (Except.error OpenError.protocolError, l, afterSendW w path flags)) ∧
    cReturn (Except.error OpenError.protocolError) = -1 ∧
    (∀ (l : Launcher) (w : World) (next : Int),
      (launcher_weston_launch_data l w true next).didRestore = true ∧
      (launcher_weston_launch_data l w true next).exited = true) := by
  refine ⟨?zeroLen, ?shortReply, ?longDeact, ?minusOne, ?hangupPath⟩
  case zeroLen =>
    intro l w path flags atts s item rest hs hlen
    refine open_bad_item_protoErr l w path flags atts s item rest hs ?_ ?_
    · rintro ⟨hl, -⟩
      rw [hlen] at hl
      exact absurd hl (by decide)
    · rintro ⟨hl, -⟩
      rw [hlen] at hl
      exact absurd hl (by decide)
  case shortReply =>
    intro l w path flags atts s item rest hs hlen hid
    refine open_bad_item_protoErr l w path flags atts s item rest hs ?_ ?_
    · rintro ⟨hl, -⟩
      rw [hlen] at hl
      exact absurd hl (by decide)
    · rintro ⟨-, hi, -⟩
      rw [hid] at hi
      exact absurd hi (by decide)
  case longDeact =>
    intro l w path flags atts s item rest hs hlen hid
    refine open_bad_item_protoErr l w path flags atts s item rest hs ?_ ?_
    · rintro ⟨-, hi⟩
      rw [hid] at hi
      exact absurd hi (by decide)
    · rintro ⟨hl, -⟩
      rw [hlen] at hl
      exact absurd hl (by decide)
  case minusOne =>
    rfl
  case hangupPath =>
    intro l w next
    exact ⟨rfl, rfl⟩

/-- Witness for C10: the concrete zero-length hangup read makes the
concrete open fail as an ordinary protocol error, while the idle-time
hangup dispatch restores and terminates. -/
theorem c10_length_discrimination_witness :
    launcher_weston_launch_open l_ex w_ex "p" 0 [SendAttempt.sent 1] [hangup_item]
      = some (Except.error OpenError.protocolError, l_ex, afterSendW w_ex "p" 0) ∧
    (launcher_weston_launch_data l_ex w_ex true 0).didRestore = true :=
  ⟨c10_length_discrimination.1 l_ex w_ex "p" 0 [SendAttempt.sent 1]
     (Except.ok 1) hangup_item [] rfl rfl,
   (c10_length_discrimination.2.2.2.2 l_ex w_ex 0).1⟩

end WestonLaunch
